import Mathlib

/-!
Shallow embedding of the addressing/accessor core of the
weather-visualcrossing repository (src/lib/weather.js, src/lib/utils.js).

Modelling conventions:
* JavaScript primitive values are modelled by `JVal` (null, undefined,
  boolean, number, string).  JS numbers are modelled as integers, which is
  sufficient for the ordinal identifiers and the field values the claims
  are about.
* A JS record (a plain object with primitive-valued fields) is modelled as
  an insertion-ordered association list `Obj`.  Property read (`o.k`),
  property write (`o.k = v`) and `Object.assign` are modelled by `getF`,
  `setF` and `objAssign` on such lists.
* A dynamically typed JS argument (which may be a primitive or an object)
  is modelled by `JsAny`.
* JS exceptions are modelled by `Except JsError`; `JsError.typeError`
  stands for `TypeError` and `JsError.error` for `Error`.  A function that
  mutates its arguments is modelled as returning the new values of the
  mutated arguments.
* In-place mutation through an aliased array element (the source resolves
  a record by reference and then assigns into it) is modelled by updating
  the sequence at the resolved position.
-/

/-- A JavaScript primitive value. -/
inductive JVal where
  | vNull
  | vUndef
  | vBool (b : Bool)
  | vNum (n : Int)
  | vStr (s : String)
deriving DecidableEq, Repr

/-- A JS record: an insertion-ordered association list of named primitive fields. -/
abbrev Obj := List (String × JVal)

/-- A dynamically typed JS argument: a primitive or a (non-null) object. -/
inductive JsAny where
  | prim (v : JVal)
  | obj (o : Obj)
deriving DecidableEq, Repr

/-- JS truthiness of a primitive value (`NaN` is not modelled). -/
def truthy : JVal → Bool
  | .vNull => false
  | .vUndef => false
  | .vBool b => b
  | .vNum n => n != 0
  | .vStr s => s != ""

/-- `typeof x === 'string'` for a dynamic argument. -/
def isStringArg : JsAny → Bool
  | .prim (.vStr _) => true
  | _ => false

/-- `typeof x === 'number'` for a dynamic argument. -/
def isNumberArg : JsAny → Bool
  | .prim (.vNum _) => true
  | _ => false

/-- `typeof x === 'object' && x !== null` for a dynamic argument. -/
def isObjArg : JsAny → Bool
  | .obj _ => true
  | _ => false

/-- Property read: first binding of the key, `none` when the property is absent. -/
def getF : Obj → String → Option JVal
  | [], _ => none
  | (k, v) :: rest, key => if k = key then some v else getF rest key

/-- Property read as a JS expression: an absent property reads as `undefined`. -/
def getD (o : Obj) (k : String) : JVal := (getF o k).getD JVal.vUndef

/-- Property write: replaces the binding in place, or appends a new binding. -/
def setF : Obj → String → JVal → Obj
  | [], key, v => [(key, v)]
  | (k, w) :: rest, key, v =>
      if k = key then (k, v) :: rest else (k, w) :: setF rest key v

/-- `Object.assign(target, updates)`: write every field of `updates` onto `target`. -/
def objAssign (target : Obj) (updates : Obj) : Obj :=
  updates.foldl (fun acc kv => setF acc kv.1 kv.2) target

/-- Array read `l[n]` for an integer index: `none` for a negative or
out-of-bounds index (JS yields `undefined` there). -/
def elemAt {α : Type} (l : List α) (n : Int) : Option α :=
  if n < 0 then none else l.get? n.toNat

/-- Replace the element at a (guaranteed in-range) natural position. -/
def setNth {α : Type} : List α → Nat → α → List α
  | [], _, _ => []
  | _ :: rest, 0, x => x :: rest
  | y :: rest, n + 1, x => y :: setNth rest n x

/-- Apply `f` to the element at a natural position, when in range. -/
def modifyNth {α : Type} : List α → Nat → (α → α) → List α
  | [], _, _ => []
  | y :: rest, 0, f => f y :: rest
  | y :: rest, n + 1, f => y :: modifyNth rest n f

/-- Apply `f` to the element at an integer index, when in range. -/
def modifyNthInt {α : Type} (l : List α) (n : Int) (f : α → α) : List α :=
  if n < 0 then l else modifyNth l n.toNat f

/-- A JS exception: `TypeError` or plain `Error`, with its message. -/
inductive JsError where
  | typeError (msg : String)
  | error (msg : String)
deriving DecidableEq, Repr

/-- `utils.js` / `extractSubobjectByKeys(originalDict, keysList)`:
copy the listed keys that are present in the record into a fresh record. -/
def extractSubobjectByKeys (originalDict : Obj) (keysList : List String) : Obj :=
  keysList.foldl
    (fun subDict key =>
      match getF originalDict key with
      | some v => subDict ++ [(key, v)]
      | none => subDict)
    []

/-- `Weather.filterItemByDatetimeVal(src, datetimeVal)`, generic over the
element type of the sequence (`dtOf` reads the datetime property of an
element; the source is a single dynamically typed function used on both the
days sequence and an hours sequence).  `src = none` models passing
`undefined` for the array, in which case dereferencing it throws.  The
typeof dispatch on `datetimeVal` happens before `src` is touched, exactly
as in the source. -/
def filterItemByDatetimeVal {α : Type} (dtOf : α → Option JVal)
    (src : Option (List α)) (datetimeVal : JsAny) : Except JsError (Option α) :=
  match datetimeVal with
  | .prim (.vStr s) =>
    match src with
    | some l => .ok (l.find? (fun item => dtOf item = some (JVal.vStr s)))
    | none => .error (.typeError "Cannot read properties of undefined - reading find")
  | .prim (.vNum n) =>
    match src with
    | some l => .ok (elemAt l n)
    | none => .error (.typeError "Cannot read properties of undefined - reading index")
  | _ => .error (.typeError "Weather.filterItemByDatetimeVal: Invalid input datetime value.")

/-- The string branch shared by `setItemByDatetimeVal` and
`updateItemByDatetimeVal`: walk the sequence, and at the first element whose
datetime equals the identifier, assign the data fields onto it and force the
datetime property back to the identifier; leave everything else unchanged.
(In the source the two branches are `Object.assign(item, data, {datetime})`
and `Object.assign(item, data); item.datetime = datetimeVal` - the same
composite update.) -/
def assignFirst : List Obj → String → Obj → List Obj
  | [], _, _ => []
  | item :: rest, s, dataF =>
      if getF item "datetime" = some (JVal.vStr s) then
        setF (objAssign item dataF) "datetime" (JVal.vStr s) :: rest
      else
        item :: assignFirst rest s dataF

/-- `Weather.setItemByDatetimeVal(src, datetimeVal, data)`.  Returns the new
contents of `src` together with the (possibly mutated) `data` argument.  The
data-validity check runs first; the numeric branch overwrites
`data.datetime` with the resolved record's datetime and then replaces the
record with a copy of `data`. -/
def setItemByDatetimeVal (src : Option (List Obj)) (datetimeVal : JsAny)
    (data : JsAny) : Except JsError (List Obj × JsAny) :=
  match data with
  | .obj dataF =>
    match datetimeVal with
    | .prim (.vStr s) =>
      match src with
      | none => .error (.typeError "src is not iterable")
      | some l => .ok (assignFirst l s dataF, .obj dataF)
    | .prim (.vNum n) =>
      match src with
      | none => .error (.typeError "Cannot read properties of undefined - reading index")
      | some l =>
        match elemAt l n with
        | none => .ok (l, .obj dataF)
        | some item =>
          let dataF2 := setF dataF "datetime" (getD item "datetime")
          .ok (setNth l n.toNat dataF2, .obj dataF2)
    | _ => .error (.typeError "Weather.setItemByDatetimeVal: Invalid input datetime value.")
  | _ => .error (.typeError "Weather.setItemByDatetimeVal: Invalid input data value.")

/-- `Weather.updateItemByDatetimeVal(src, datetimeVal, data)`.  Like
`setItemByDatetimeVal` but the numeric branch merges the (mutated) `data`
onto the resolved record instead of replacing it. -/
def updateItemByDatetimeVal (src : Option (List Obj)) (datetimeVal : JsAny)
    (data : JsAny) : Except JsError (List Obj × JsAny) :=
  match data with
  | .obj dataF =>
    match datetimeVal with
    | .prim (.vStr s) =>
      match src with
      | none => .error (.typeError "src is not iterable")
      | some l => .ok (assignFirst l s dataF, .obj dataF)
    | .prim (.vNum n) =>
      match src with
      | none => .error (.typeError "Cannot read properties of undefined - reading index")
      | some l =>
        match elemAt l n with
        | none => .ok (l, .obj dataF)
        | some item =>
          let dataF2 := setF dataF "datetime" (getD item "datetime")
          .ok (setNth l n.toNat (objAssign item dataF2), .obj dataF2)
    | _ => .error (.typeError "Weather.updateItemByDatetimeVal: Invalid input datetime value.")
  | _ => .error (.typeError "Weather.updateItemByDatetimeVal: Invalid input data value.")

/-- The fixed relative-date keyword vocabulary of `Weather.validateParamDate`. -/
def dateKeywords : List String :=
  ["today", "tomorrow", "yesterday", "yeartodate", "monthtodate",
   "lastyear", "last24hours", "nextweekend", "lastweekend"]

/-- The seven weekday names of the `next<Weekday>` / `last<Weekday>` patterns. -/
def weekdayNames : List String :=
  ["saturday", "sunday", "monday", "tuesday", "wednesday", "thursday", "friday"]

/-- Strip an expected literal sequence from the front of a character list,
returning the remainder on success. -/
def stripPre : List Char → List Char → Option (List Char)
  | [], cs => some cs
  | _ :: _, [] => none
  | p :: ps, c :: cs => if c = p then stripPre ps cs else none

/-- Consume exactly `n` decimal digits from the front of a character list. -/
def digitN : Nat → List Char → Option (List Char)
  | 0, cs => some cs
  | _ + 1, [] => none
  | n + 1, c :: cs => if c.isDigit then digitN n cs else none

/-- Consume one expected literal character from the front of a character list. -/
def lit (ch : Char) : List Char → Option (List Char)
  | [] => none
  | c :: cs => if c = ch then some cs else none

/-- Drop the maximal run of decimal digits from the front of a character
list. -/
def dropDigits : List Char → List Char
  | [] => []
  | c :: rest => if c.isDigit then dropDigits rest else c :: rest

/-- `^<pre>(\d+)days$`: the given literal head, then at least one digit,
then the literal characters `days` and nothing else.  (Since `d` is not a
digit, consuming the maximal digit run and requiring the exact remainder
`days` is the regular expression.) -/
def matchNdays (pre : List Char) (cs : List Char) : Bool :=
  match stripPre pre cs with
  | some (c :: rest) => c.isDigit && (dropDigits rest == ['d', 'a', 'y', 's'])
  | _ => false

/-- `^<pre>(saturday|sunday|monday|tuesday|wednesday|thursday|friday)$`. -/
def matchWeekday (pre : List Char) (cs : List Char) : Bool :=
  match stripPre pre cs with
  | some rest => (weekdayNames.map String.toList).contains rest
  | none => false

/-- The `^\d{4}-\d{2}-\d{2}$` calendar-date shape test. -/
def isDateShape (cs : List Char) : Bool :=
  ((((digitN 4 cs).bind (lit '-')).bind (fun r => digitN 2 r)).bind
      (lit '-')).bind (fun r => digitN 2 r) == some ([] : List Char)

/-- The `^\d{4}-\d{2}-\d{2}T\d{2}:\d{2}:\d{2}$` calendar-datetime shape test. -/
def isDatetimeShape (cs : List Char) : Bool :=
  ((((((((((digitN 4 cs).bind (lit '-')).bind (fun r => digitN 2 r)).bind
      (lit '-')).bind (fun r => digitN 2 r)).bind (lit 'T')).bind
      (fun r => digitN 2 r)).bind (lit ':')).bind (fun r => digitN 2 r)).bind
      (lit ':')).bind (fun r => digitN 2 r) == some ([] : List Char)

/-- The disjunction of string tests performed by `Weather.validateParamDate`,
in source order: keyword vocabulary, `next/last<N>days`, `next/last<Weekday>`,
calendar-date shape, calendar-datetime shape. -/
def dateStringOk (s : String) : Bool :=
  dateKeywords.contains s
  || matchNdays "next".toList s.toList
  || matchNdays "last".toList s.toList
  || matchWeekday "next".toList s.toList
  || matchWeekday "last".toList s.toList
  || isDateShape s.toList
  || isDatetimeShape s.toList

/-- `Weather.validateParamDate(param)`: a string passing one of the pattern
tests is returned unchanged, any number is returned unchanged, any other
string raises `Error` and any other type raises `TypeError`. -/
def validateParamDate (param : JsAny) : Except JsError JsAny :=
  match param with
  | .prim (.vStr s) =>
    if dateStringOk s then .ok param
    else .error (.error "Weather.validateParamDate: Invalid date.")
  | .prim (.vNum _) => .ok param
  | _ => .error (.typeError "Weather.validateParamDate: Invalid date type.")

/-- One day record of the stored document: its flat weather fields
(including its `datetime` string) together with its optional `hours`
sequence of hour records.  An absent `hours` property is `none`. -/
structure DayRec where
  fields : Obj
  hours : Option (List Obj)
deriving DecidableEq, Repr

/-- The datetime property of a day record, as read by the resolution rule. -/
def dayDt (d : DayRec) : Option JVal := getF d.fields "datetime"

/-- The datetime property of an hour record. -/
def hourDt (h : Obj) : Option JVal := getF h "datetime"

/-- The private `#weatherData` document, restricted to the top-level fields
the claims are about: the `days` sequence, `queryCost` and `tzoffset`.
`none` models an absent property (the document starts as `{}`). -/
structure WeatherData where
  days : Option (List DayRec)
  queryCost : Option JVal
  tzoffset : Option JVal
deriving DecidableEq, Repr

/-- The `tmp === 0 ? 0 : (tmp || null)` normalization used by the
day-granularity get accessors: a present 0 stays 0, any other falsy value
(including undefined for a missing field) collapses to null. -/
def zeroElse (tmp : JVal) : JVal :=
  if tmp = JVal.vNum 0 then JVal.vNum 0
  else if truthy tmp then tmp else JVal.vNull

/-- `Weather.getQueryCost()`: `this.#weatherData.queryCost || null`. -/
def getQueryCost (wd : WeatherData) : JVal :=
  match wd.queryCost with
  | some v => if truthy v then v else JVal.vNull
  | none => JVal.vNull

/-- `Weather.getTzoffset()`: `tz === 0 ? 0 : (tz || null)`. -/
def getTzoffset (wd : WeatherData) : JVal :=
  match wd.tzoffset with
  | some v => zeroElse v
  | none => JVal.vNull

/-- The try-block of `Weather.getTempOnDay(dayInfo)`: dispatch on the
identifier type, resolve the day, read its `temp` with optional chaining,
and normalize with `tmp === 0 ? 0 : (tmp || null)`.  Dereferencing an
absent `days` property throws, as does the invalid-identifier branch. -/
def getTempOnDayBody (wd : WeatherData) (dayInfo : JsAny) : Except JsError JVal :=
  match dayInfo with
  | .prim (.vStr s) =>
    match wd.days with
    | none => .error (.typeError "Cannot read properties of undefined - reading find")
    | some days =>
      let tmp : JVal :=
        match days.find? (fun day => dayDt day = some (JVal.vStr s)) with
        | some day => getD day.fields "temp"
        | none => JVal.vUndef
      .ok (zeroElse tmp)
  | .prim (.vNum n) =>
    match wd.days with
    | none => .error (.typeError "Cannot read properties of undefined - reading index")
    | some days =>
      let tmp : JVal :=
        match elemAt days n with
        | some day => getD day.fields "temp"
        | none => JVal.vUndef
      .ok (zeroElse tmp)
  | _ => .error (.typeError "Weather.getTempOnDay: Invalid input day value.")

/-- `Weather.getTempOnDay(dayInfo)`: the catch clause turns every error of
the body, including the invalid-identifier TypeError, into `null`. -/
def getTempOnDay (wd : WeatherData) (dayInfo : JsAny) : JVal :=
  match getTempOnDayBody wd dayInfo with
  | .ok v => v
  | .error _ => JVal.vNull

/-- Update the first element whose datetime property equals the given
string (the aliased `day.temp = value` mutation after a `find`). -/
def updFirstBy {α : Type} (dtOf : α → Option JVal) :
    List α → String → (α → α) → List α
  | [], _, _ => []
  | x :: rest, s, f =>
      if dtOf x = some (JVal.vStr s) then f x :: rest
      else x :: updFirstBy dtOf rest s f

/-- `Weather.setTempOnDay(dayInfo, value)`: resolve the day and mutate its
`temp` in place when found; a failed resolution with a valid identifier is
a no-op; an invalid identifier type throws, and the catch clause rethrows. -/
def setTempOnDay (wd : WeatherData) (dayInfo : JsAny) (value : JVal) :
    Except JsError WeatherData :=
  match dayInfo with
  | .prim (.vStr s) =>
    match wd.days with
    | none => .error (.typeError "Cannot read properties of undefined - reading find")
    | some days =>
      .ok { wd with days := some (updFirstBy dayDt days s
              (fun d => { d with fields := setF d.fields "temp" value })) }
  | .prim (.vNum n) =>
    match wd.days with
    | none => .error (.typeError "Cannot read properties of undefined - reading index")
    | some days =>
      .ok { wd with days := some (modifyNthInt days n
              (fun d => { d with fields := setF d.fields "temp" value })) }
  | _ => .error (.typeError "Weather.setTempOnDay: Invalid input day value.")

/-- Update the sequence at the position a valid identifier resolves to
(first datetime match for a string, index for a number); used to model the
aliased in-place mutations of the datetime-granularity setters. -/
def updResolved {α : Type} (dtOf : α → Option JVal) (l : List α)
    (idv : JsAny) (f : α → α) : List α :=
  match idv with
  | .prim (.vStr s) => updFirstBy dtOf l s f
  | .prim (.vNum n) => modifyNthInt l n f
  | _ => l

/-- The try-block of `Weather.getTempAtDatetime(dayInfo, timeInfo)`:
resolve the day; when the day is absent return it (null) without touching
the time identifier; otherwise resolve the hour and return
`hourItem && hourItem.temp`. -/
def getTempAtDatetimeBody (wd : WeatherData) (dayInfo timeInfo : JsAny) :
    Except JsError JVal :=
  match filterItemByDatetimeVal dayDt wd.days dayInfo with
  | .error e => .error e
  | .ok none => .ok JVal.vNull
  | .ok (some day) =>
    match filterItemByDatetimeVal hourDt day.hours timeInfo with
    | .error e => .error e
    | .ok none => .ok JVal.vNull
    | .ok (some hourItem) => .ok (getD hourItem "temp")

/-- `Weather.getTempAtDatetime(dayInfo, timeInfo)`: the catch clause turns
every error of the body into `null`. -/
def getTempAtDatetime (wd : WeatherData) (dayInfo timeInfo : JsAny) : JVal :=
  match getTempAtDatetimeBody wd dayInfo timeInfo with
  | .ok v => v
  | .error _ => JVal.vNull

/-- `Weather.setTempAtDatetime(dayInfo, timeInfo, value)`:
`dayItem && (Weather.filterItemByDatetimeVal(dayItem.hours, timeInfo).temp = value)`.
An absent day short-circuits into a no-op before the time identifier is
looked at; but when the day is present and the hour resolution yields null,
the property assignment on null throws a TypeError, which the catch clause
rethrows. -/
def setTempAtDatetime (wd : WeatherData) (dayInfo timeInfo : JsAny)
    (value : JVal) : Except JsError WeatherData :=
  match filterItemByDatetimeVal dayDt wd.days dayInfo with
  | .error e => .error e
  | .ok none => .ok wd
  | .ok (some day) =>
    match filterItemByDatetimeVal hourDt day.hours timeInfo with
    | .error e => .error e
    | .ok none => .error (.typeError "Cannot set properties of null - setting temp")
    | .ok (some _) =>
      .ok { wd with days := (wd.days).map (fun ds =>
              updResolved dayDt ds dayInfo (fun d =>
                { d with hours := (d.hours).map (fun hs =>
                    updResolved hourDt hs timeInfo
                      (fun h => setF h "temp" value)) })) }

/-- `Weather.getDataAtDatetime(dayInfo, timeInfo, elements)`: resolve the
day, then dereference `dayItem.hours` - which throws a TypeError when the
day resolution produced null - resolve the hour, and return the hour record
(null when absent), optionally projected to the requested elements. -/
def getDataAtDatetime (wd : WeatherData) (dayInfo timeInfo : JsAny)
    (elements : List String) : Except JsError (Option Obj) :=
  match filterItemByDatetimeVal dayDt wd.days dayInfo with
  | .error e => .error e
  | .ok none => .error (.typeError "Cannot read properties of null - reading hours")
  | .ok (some dayItem) =>
    match filterItemByDatetimeVal hourDt dayItem.hours timeInfo with
    | .error e => .error e
    | .ok none =>
      if elements.isEmpty then .ok none
      else .error (.typeError "Cannot use in operator on null")
    | .ok (some data) =>
      if elements.isEmpty then .ok (some data)
      else .ok (some (extractSubobjectByKeys data elements))

/-- `Weather.setDataAtDatetime(dayInfo, timeInfo, data)`: resolve the day,
dereference `dayItem.hours` - throwing a TypeError when the day resolution
produced null - and run `Weather.setItemByDatetimeVal` on the hours
sequence. -/
def setDataAtDatetime (wd : WeatherData) (dayInfo timeInfo : JsAny)
    (data : JsAny) : Except JsError WeatherData :=
  match filterItemByDatetimeVal dayDt wd.days dayInfo with
  | .error e => .error e
  | .ok none => .error (.typeError "Cannot read properties of null - reading hours")
  | .ok (some dayItem) =>
    match setItemByDatetimeVal dayItem.hours timeInfo data with
    | .error e => .error e
    | .ok (hoursNew, _) =>
      .ok { wd with days := (wd.days).map (fun ds =>
              updResolved dayDt ds dayInfo
                (fun d => { d with hours := some hoursNew })) }

/-- The date-expression vocabulary as the specification describes it
(for the refinement statement of claim C7): the fixed keyword list, the
`next<N>days` / `last<N>days` forms for a non-negative integer N (written
as a non-empty run of decimal digits), the `next<Weekday>` /
`last<Weekday>` forms for the seven weekday names, the calendar-date
string form `YYYY-MM-DD` and the calendar-datetime string form
`YYYY-MM-DDTHH:MM:SS`. -/
def dateExprSpec (s : String) : Prop :=
  s ∈ dateKeywords
  ∨ (∃ pre ∈ ["next", "last"], ∃ ds : List Char, ds ≠ [] ∧
       (∀ c ∈ ds, c.isDigit) ∧
       s.toList = pre.toList ++ ds ++ ['d', 'a', 'y', 's'])
  ∨ (∃ pre ∈ ["next", "last"], ∃ w ∈ weekdayNames,
       s.toList = pre.toList ++ w.toList)
  ∨ (∃ y mo d : List Char, y.length = 4 ∧ mo.length = 2 ∧ d.length = 2 ∧
       (∀ c ∈ y, c.isDigit) ∧ (∀ c ∈ mo, c.isDigit) ∧ (∀ c ∈ d, c.isDigit) ∧
       s.toList = y ++ '-' :: (mo ++ '-' :: d))
  ∨ (∃ y mo d hh mm ss : List Char,
       y.length = 4 ∧ mo.length = 2 ∧ d.length = 2 ∧
       hh.length = 2 ∧ mm.length = 2 ∧ ss.length = 2 ∧
       (∀ c ∈ y, c.isDigit) ∧ (∀ c ∈ mo, c.isDigit) ∧ (∀ c ∈ d, c.isDigit) ∧
       (∀ c ∈ hh, c.isDigit) ∧ (∀ c ∈ mm, c.isDigit) ∧ (∀ c ∈ ss, c.isDigit) ∧
       s.toList = y ++ '-' :: (mo ++ '-' :: (d ++ 'T' ::
         (hh ++ ':' :: (mm ++ ':' :: ss)))))

/-- A small sample document used by the concrete witnesses and
counterexamples: one day 2025-03-07 (temp 15) holding one hour 00:00:00
(temp 14), with queryCost and tzoffset both holding 0. -/
def sampleDoc : WeatherData :=
  { days := some [⟨[("datetime", JVal.vStr "2025-03-07"),
        ("temp", JVal.vNum 15)],
      some [[("datetime", JVal.vStr "00:00:00"), ("temp", JVal.vNum 14)]]⟩],
    queryCost := some (JVal.vNum 0),
    tzoffset := some (JVal.vNum 0) }

/-! ### Association-list lemmas -/

theorem getF_setF_self (o : Obj) (k : String) (v : JVal) :
    getF (setF o k v) k = some v := by
  induction o with
  | nil => simp [setF, getF]
  | cons kv rest ih =>
    obtain ⟨k1, v1⟩ := kv
    by_cases h : k1 = k
    · simp [setF, getF, h]
    · simp [setF, getF, h, ih]

theorem getF_setF_ne (o : Obj) (k k' : String) (v : JVal) (h : k' ≠ k) :
    getF (setF o k v) k' = getF o k' := by
  have h2 : ¬ k = k' := fun hk => h hk.symm
  induction o with
  | nil => simp [setF, getF, h2]
  | cons kv rest ih =>
    obtain ⟨k1, v1⟩ := kv
    by_cases h1 : k1 = k
    · subst h1
      simp [setF, getF, h2]
    · simp [setF, getF, h1, ih]

theorem keys_setF (o : Obj) (k : String) (v : JVal) :
    (setF o k v).map Prod.fst =
      if k ∈ o.map Prod.fst then o.map Prod.fst else o.map Prod.fst ++ [k] := by
  induction o with
  | nil => simp [setF]
  | cons kv rest ih =>
    obtain ⟨k1, v1⟩ := kv
    by_cases h1 : k1 = k
    · subst h1
      simp [setF]
    · by_cases h2 : k ∈ rest.map Prod.fst
      · simp [setF, h1, ih, h2, Ne.symm h1]
      · simp [setF, h1, ih, h2, Ne.symm h1]

theorem objAssign_cons (o : Obj) (k : String) (v : JVal) (rest : Obj) :
    objAssign o ((k, v) :: rest) = objAssign (setF o k v) rest := rfl

theorem getF_objAssign_not_mem (o u : Obj) (k : String)
    (h : k ∉ u.map Prod.fst) : getF (objAssign o u) k = getF o k := by
  induction u generalizing o with
  | nil => rfl
  | cons kv rest ih =>
    obtain ⟨k1, v1⟩ := kv
    simp only [List.map_cons, List.mem_cons, not_or] at h
    rw [objAssign_cons, ih (setF o k1 v1) h.2, getF_setF_ne o k1 k v1 h.1]

theorem getF_objAssign_mem (o u : Obj) (k : String) (v : JVal)
    (hnd : (u.map Prod.fst).Nodup) (h : getF u k = some v) :
    getF (objAssign o u) k = some v := by
  induction u generalizing o with
  | nil => simp [getF] at h
  | cons kv rest ih =>
    obtain ⟨k1, v1⟩ := kv
    simp only [List.map_cons, List.nodup_cons] at hnd
    by_cases h1 : k1 = k
    · subst h1
      have hv : v1 = v := by simpa [getF] using h
      subst hv
      rw [objAssign_cons, getF_objAssign_not_mem _ _ _ hnd.1, getF_setF_self]
    · simp only [getF, if_neg h1] at h
      rw [objAssign_cons]
      exact ih _ hnd.2 h

theorem nodup_keys_setF (o : Obj) (k : String) (v : JVal)
    (h : (o.map Prod.fst).Nodup) : ((setF o k v).map Prod.fst).Nodup := by
  rw [keys_setF]
  by_cases hm : k ∈ o.map Prod.fst
  · simpa [hm] using h
  · rw [if_neg hm]
    simp [List.nodup_append, h, hm]

/-! ### Positional-update lemmas -/

theorem elemAt_nonneg {α : Type} {l : List α} {n : Int} {x : α}
    (h : elemAt l n = some x) : 0 ≤ n := by
  by_contra hn
  simp [elemAt, show n < 0 by omega] at h

theorem get?_modifyNth_self {α : Type} (l : List α) (i : Nat) (f : α → α)
    (x : α) (h : l.get? i = some x) : (modifyNth l i f).get? i = some (f x) := by
  induction l generalizing i with
  | nil => simp at h
  | cons y rest ih =>
    cases i with
    | zero => simp_all [modifyNth]
    | succ j => simpa [modifyNth] using ih j (by simpa using h)

theorem modifyNth_eq_self {α : Type} (l : List α) (i : Nat) (f : α → α)
    (x : α) (h : l.get? i = some x) (hfx : f x = x) : modifyNth l i f = l := by
  induction l generalizing i with
  | nil => rfl
  | cons y rest ih =>
    cases i with
    | zero => simp_all [modifyNth]
    | succ j => simpa [modifyNth] using ih j (by simpa using h)

theorem elemAt_modifyNthInt_self {α : Type} (l : List α) (n : Int)
    (f : α → α) (x : α) (h : elemAt l n = some x) :
    elemAt (modifyNthInt l n f) n = some (f x) := by
  have hn : ¬ n < 0 := by have := elemAt_nonneg h; omega
  simp only [elemAt, if_neg hn] at h
  simp only [modifyNthInt, elemAt, if_neg hn]
  exact get?_modifyNth_self l n.toNat f x h

theorem modifyNthInt_eq_self {α : Type} (l : List α) (n : Int)
    (f : α → α) (x : α) (h : elemAt l n = some x) (hfx : f x = x) :
    modifyNthInt l n f = l := by
  have hn : ¬ n < 0 := by have := elemAt_nonneg h; omega
  simp only [elemAt, if_neg hn] at h
  simp only [modifyNthInt, if_neg hn]
  exact modifyNth_eq_self l n.toNat f x h hfx

theorem get?_setNth_self {α : Type} (l : List α) (i : Nat) (y x : α)
    (h : l.get? i = some x) : (setNth l i y).get? i = some y := by
  induction l generalizing i with
  | nil => simp at h
  | cons z rest ih =>
    cases i with
    | zero => simp [setNth]
    | succ j => simpa [setNth] using ih j (by simpa using h)

theorem elemAt_setNth_self {α : Type} (l : List α) (n : Int) (y x : α)
    (h : elemAt l n = some x) : elemAt (setNth l n.toNat y) n = some y := by
  have hn : ¬ n < 0 := by have := elemAt_nonneg h; omega
  simp only [elemAt, if_neg hn] at h ⊢
  exact get?_setNth_self l n.toNat y x h

/-! ### First-match lemmas -/

theorem find?_updFirstBy {α : Type} (dtOf : α → Option JVal) (l : List α)
    (s : String) (f : α → α) (x : α)
    (hdt : ∀ a, dtOf (f a) = dtOf a)
    (h : l.find? (fun item => dtOf item = some (JVal.vStr s)) = some x) :
    (updFirstBy dtOf l s f).find? (fun item => dtOf item = some (JVal.vStr s))
      = some (f x) := by
  induction l with
  | nil => simp at h
  | cons y rest ih =>
    by_cases hy : dtOf y = some (JVal.vStr s)
    · rw [List.find?_cons_of_pos _ (by simpa using hy)] at h
      obtain rfl : y = x := by simpa using h
      rw [updFirstBy, if_pos hy]
      exact List.find?_cons_of_pos _ (by simpa [hdt] using hy)
    · rw [List.find?_cons_of_neg _ (by simpa using hy)] at h
      rw [updFirstBy, if_neg hy]
      rw [List.find?_cons_of_neg _ (by simpa using hy)]
      exact ih h

theorem updFirstBy_eq_self {α : Type} (dtOf : α → Option JVal) (l : List α)
    (s : String) (f : α → α) (x : α)
    (h : l.find? (fun item => dtOf item = some (JVal.vStr s)) = some x)
    (hfx : f x = x) : updFirstBy dtOf l s f = l := by
  induction l with
  | nil => rfl
  | cons y rest ih =>
    by_cases hy : dtOf y = some (JVal.vStr s)
    · rw [List.find?_cons_of_pos _ (by simpa using hy)] at h
      obtain rfl : y = x := by simpa using h
      rw [updFirstBy, if_pos hy, hfx]
    · rw [List.find?_cons_of_neg _ (by simpa using hy)] at h
      rw [updFirstBy, if_neg hy, ih h]

theorem assignFirst_no_match (l : List Obj) (s : String) (dataF : Obj)
    (h : ∀ x ∈ l, getF x "datetime" ≠ some (JVal.vStr s)) :
    assignFirst l s dataF = l := by
  induction l with
  | nil => rfl
  | cons y rest ih =>
    rw [assignFirst, if_neg (h y (by simp)),
      ih (fun x hx => h x (by simp [hx]))]

theorem assignFirst_find (l : List Obj) (s : String) (dataF : Obj) (item : Obj)
    (h : l.find? (fun x => getF x "datetime" = some (JVal.vStr s)) = some item) :
    (assignFirst l s dataF).find?
        (fun x => getF x "datetime" = some (JVal.vStr s))
      = some (setF (objAssign item dataF) "datetime" (JVal.vStr s)) := by
  induction l with
  | nil => simp at h
  | cons y rest ih =>
    by_cases hy : getF y "datetime" = some (JVal.vStr s)
    · rw [List.find?_cons_of_pos _ (by simpa using hy)] at h
      obtain rfl : y = item := by simpa using h
      rw [assignFirst, if_pos hy]
      exact List.find?_cons_of_pos _ (by simp [getF_setF_self])
    · rw [List.find?_cons_of_neg _ (by simpa using hy)] at h
      rw [assignFirst, if_neg hy]
      rw [List.find?_cons_of_neg _ (by simpa using hy)]
      exact ih h

/-! ### Pattern-matcher characterizations -/

theorem stripPre_eq_some (p : List Char) :
    ∀ cs r, stripPre p cs = some r ↔ cs = p ++ r := by
  induction p with
  | nil =>
    intro cs r
    simp [stripPre, eq_comm]
  | cons pc ps ih =>
    intro cs r
    cases cs with
    | nil => simp [stripPre]
    | cons c rest =>
      by_cases hc : c = pc
      · subst hc
        simp [stripPre, ih]
      · simp [stripPre, hc]

theorem dropDigits_decomp (cs : List Char) :
    ∃ ds, (∀ c ∈ ds, c.isDigit) ∧ cs = ds ++ dropDigits cs := by
  induction cs with
  | nil => exact ⟨[], by simp, rfl⟩
  | cons c rest ih =>
    by_cases hc : c.isDigit
    · obtain ⟨ds, hdig, hrest⟩ := ih
      refine ⟨c :: ds, ?_, ?_⟩
      · intro x hx
        rcases List.mem_cons.mp hx with rfl | hx
        · exact hc
        · exact hdig x hx
      · simp only [dropDigits, if_pos hc, List.cons_append, List.cons.injEq,
          true_and]
        exact hrest
    · exact ⟨[], by simp, by simp [dropDigits, hc]⟩

theorem dropDigits_append_digits (ds l : List Char)
    (h : ∀ c ∈ ds, c.isDigit) : dropDigits (ds ++ l) = dropDigits l := by
  induction ds with
  | nil => rfl
  | cons c rest ih =>
    simp only [List.cons_append, dropDigits, if_pos (h c (by simp))]
    exact ih (fun x hx => h x (by simp [hx]))

theorem matchNdays_iff (pre cs : List Char) :
    matchNdays pre cs = true ↔
      ∃ ds, ds ≠ [] ∧ (∀ c ∈ ds, c.isDigit) ∧
        cs = pre ++ ds ++ ['d', 'a', 'y', 's'] := by
  constructor
  · intro h
    unfold matchNdays at h
    rcases hsp : stripPre pre cs with _ | r
    · rw [hsp] at h
      cases h
    · rw [hsp] at h
      cases r with
      | nil => cases h
      | cons c rest =>
        simp only [Bool.and_eq_true, beq_iff_eq] at h
        obtain ⟨ds', hds', hrest⟩ := dropDigits_decomp rest
        refine ⟨c :: ds', by simp, ?_, ?_⟩
        · intro x hx
          rcases List.mem_cons.mp hx with rfl | hx
          · exact h.1
          · exact hds' x hx
        · have hcs := (stripPre_eq_some pre cs (c :: rest)).mp hsp
          rw [hcs, hrest, h.2]
          simp
  · rintro ⟨ds, hne, hdig, rfl⟩
    cases ds with
    | nil => exact absurd rfl hne
    | cons c ds' =>
      have hsp : stripPre pre (pre ++ (c :: ds') ++ ['d', 'a', 'y', 's'])
          = some (c :: (ds' ++ ['d', 'a', 'y', 's'])) := by
        rw [stripPre_eq_some]
        simp
      unfold matchNdays
      rw [hsp]
      have hdrop : dropDigits (ds' ++ ['d', 'a', 'y', 's'])
          = ['d', 'a', 'y', 's'] := by
        rw [dropDigits_append_digits ds' _ (fun x hx => hdig x (by simp [hx]))]
        rfl
      simp [hdrop, hdig c (by simp)]

theorem matchWeekday_iff (pre cs : List Char) :
    matchWeekday pre cs = true ↔
      ∃ w ∈ weekdayNames, cs = pre ++ w.toList := by
  constructor
  · intro h
    unfold matchWeekday at h
    rcases hsp : stripPre pre cs with _ | rest
    · rw [hsp] at h
      cases h
    · rw [hsp] at h
      have hmem : rest ∈ weekdayNames.map String.toList := by
        simpa using h
      obtain ⟨w, hw, rfl⟩ := List.mem_map.mp hmem
      exact ⟨w, hw, (stripPre_eq_some pre cs _).mp hsp⟩
  · rintro ⟨w, hw, rfl⟩
    unfold matchWeekday
    have hsp : stripPre pre (pre ++ w.toList) = some w.toList := by
      rw [stripPre_eq_some]
    rw [hsp]
    simpa using List.mem_map.mpr ⟨w, hw, rfl⟩

theorem lit_eq_some (ch : Char) (cs r : List Char) :
    lit ch cs = some r ↔ cs = ch :: r := by
  cases cs with
  | nil => simp [lit]
  | cons c rest =>
    by_cases hc : c = ch
    · subst hc
      simp [lit]
    · simp [lit, hc]

theorem digitN_eq_some (n : Nat) :
    ∀ cs r, digitN n cs = some r ↔
      ∃ ds, ds.length = n ∧ (∀ c ∈ ds, c.isDigit) ∧ cs = ds ++ r := by
  induction n with
  | zero =>
    intro cs r
    constructor
    · intro h
      exact ⟨[], rfl, by simp, by simpa [digitN, eq_comm] using h⟩
    · rintro ⟨ds, hlen, -, rfl⟩
      obtain rfl := List.length_eq_zero.mp hlen
      simp [digitN]
  | succ n ih =>
    intro cs r
    cases cs with
    | nil =>
      simp only [digitN]
      constructor
      · intro h
        cases h
      · rintro ⟨ds, hlen, -, hcs⟩
        obtain ⟨rfl, -⟩ := List.append_eq_nil.mp hcs.symm
        simp at hlen
    | cons c rest =>
      by_cases hc : c.isDigit
      · rw [show digitN (n + 1) (c :: rest) = digitN n rest by
          simp [digitN, hc], ih rest r]
        constructor
        · rintro ⟨ds, rfl, hdig, rfl⟩
          refine ⟨c :: ds, by simp, ?_, by simp⟩
          intro x hx
          rcases List.mem_cons.mp hx with rfl | hx
          · exact hc
          · exact hdig x hx
        · rintro ⟨ds, hlen, hdig, hcs⟩
          cases ds with
          | nil => simp at hlen
          | cons d ds' =>
            obtain ⟨rfl, hrest⟩ : d = c ∧ rest = ds' ++ r := by
              have := hcs
              simp only [List.cons_append, List.cons.injEq] at this
              exact ⟨this.1.symm, this.2⟩
            exact ⟨ds', by simpa using hlen,
              fun x hx => hdig x (by simp [hx]), hrest⟩
      · rw [show digitN (n + 1) (c :: rest) = none by simp [digitN, hc]]
        constructor
        · intro h
          cases h
        · rintro ⟨ds, hlen, hdig, hcs⟩
          cases ds with
          | nil => simp at hlen
          | cons d ds' =>
            obtain ⟨rfl, -⟩ : d = c ∧ rest = ds' ++ r := by
              simp only [List.cons_append, List.cons.injEq] at hcs
              exact ⟨hcs.1.symm, hcs.2⟩
            exact absurd (hdig d (by simp)) hc

theorem isDateShape_iff (cs : List Char) :
    isDateShape cs = true ↔
      ∃ y mo d : List Char, y.length = 4 ∧ mo.length = 2 ∧ d.length = 2 ∧
        (∀ c ∈ y, c.isDigit) ∧ (∀ c ∈ mo, c.isDigit) ∧ (∀ c ∈ d, c.isDigit) ∧
        cs = y ++ '-' :: (mo ++ '-' :: d) := by
  constructor
  · intro h
    unfold isDateShape at h
    simp only [beq_iff_eq, Option.bind_eq_some, lit_eq_some,
      digitN_eq_some] at h
    obtain ⟨a4, ⟨a3, ⟨a2, ⟨a1, ⟨y, hy4, hydig, rfl⟩, rfl⟩,
      mo, hmo2, hmodig, rfl⟩, rfl⟩, d, hd2, hddig, hnil⟩ := h
    refine ⟨y, mo, d, hy4, hmo2, hd2, hydig, hmodig, hddig, ?_⟩
    rw [hnil]
    simp
  · rintro ⟨y, mo, d, hy4, hmo2, hd2, hydig, hmodig, hddig, rfl⟩
    have h1 : digitN 4 (y ++ '-' :: (mo ++ '-' :: d))
        = some ('-' :: (mo ++ '-' :: d)) :=
      (digitN_eq_some 4 _ _).mpr ⟨y, hy4, hydig, rfl⟩
    have h3 : digitN 2 (mo ++ '-' :: d) = some ('-' :: d) :=
      (digitN_eq_some 2 _ _).mpr ⟨mo, hmo2, hmodig, rfl⟩
    have h5 : digitN 2 d = some [] :=
      (digitN_eq_some 2 _ _).mpr ⟨d, hd2, hddig, by simp⟩
    unfold isDateShape
    simp only [beq_iff_eq, Option.bind_eq_some]
    exact ⟨d, ⟨'-' :: d, ⟨mo ++ '-' :: d,
      ⟨'-' :: (mo ++ '-' :: d), h1, by simp [lit]⟩, h3⟩, by simp [lit]⟩, h5⟩

theorem isDatetimeShape_iff (cs : List Char) :
    isDatetimeShape cs = true ↔
      ∃ y mo d hh mm ss : List Char,
        y.length = 4 ∧ mo.length = 2 ∧ d.length = 2 ∧
        hh.length = 2 ∧ mm.length = 2 ∧ ss.length = 2 ∧
        (∀ c ∈ y, c.isDigit) ∧ (∀ c ∈ mo, c.isDigit) ∧ (∀ c ∈ d, c.isDigit) ∧
        (∀ c ∈ hh, c.isDigit) ∧ (∀ c ∈ mm, c.isDigit) ∧ (∀ c ∈ ss, c.isDigit) ∧
        cs = y ++ '-' :: (mo ++ '-' :: (d ++ 'T' ::
          (hh ++ ':' :: (mm ++ ':' :: ss)))) := by
  constructor
  · intro h
    unfold isDatetimeShape at h
    simp only [beq_iff_eq, Option.bind_eq_some, lit_eq_some,
      digitN_eq_some] at h
    obtain ⟨a10, ⟨a9, ⟨a8, ⟨a7, ⟨a6, ⟨a5, ⟨a4, ⟨a3, ⟨a2, ⟨a1,
      ⟨y, hy4, hydig, rfl⟩, rfl⟩, mo, hmo2, hmodig, rfl⟩, rfl⟩,
      d, hd2, hddig, rfl⟩, rfl⟩, hh, hhh2, hhhdig, rfl⟩, rfl⟩,
      mm, hmm2, hmmdig, rfl⟩, rfl⟩, ss, hss2, hssdig, hnil⟩ := h
    refine ⟨y, mo, d, hh, mm, ss, hy4, hmo2, hd2, hhh2, hmm2, hss2,
      hydig, hmodig, hddig, hhhdig, hmmdig, hssdig, ?_⟩
    rw [hnil]
    simp
  · rintro ⟨y, mo, d, hh, mm, ss, hy4, hmo2, hd2, hhh2, hmm2, hss2,
      hydig, hmodig, hddig, hhhdig, hmmdig, hssdig, rfl⟩
    have h1 : digitN 4 (y ++ '-' :: (mo ++ '-' :: (d ++ 'T' ::
        (hh ++ ':' :: (mm ++ ':' :: ss)))))
        = some ('-' :: (mo ++ '-' :: (d ++ 'T' ::
            (hh ++ ':' :: (mm ++ ':' :: ss))))) :=
      (digitN_eq_some 4 _ _).mpr ⟨y, hy4, hydig, rfl⟩
    have h3 : digitN 2 (mo ++ '-' :: (d ++ 'T' ::
        (hh ++ ':' :: (mm ++ ':' :: ss))))
        = some ('-' :: (d ++ 'T' :: (hh ++ ':' :: (mm ++ ':' :: ss)))) :=
      (digitN_eq_some 2 _ _).mpr ⟨mo, hmo2, hmodig, rfl⟩
    have h5 : digitN 2 (d ++ 'T' :: (hh ++ ':' :: (mm ++ ':' :: ss)))
        = some ('T' :: (hh ++ ':' :: (mm ++ ':' :: ss))) :=
      (digitN_eq_some 2 _ _).mpr ⟨d, hd2, hddig, rfl⟩
    have h7 : digitN 2 (hh ++ ':' :: (mm ++ ':' :: ss))
        = some (':' :: (mm ++ ':' :: ss)) :=
      (digitN_eq_some 2 _ _).mpr ⟨hh, hhh2, hhhdig, rfl⟩
    have h9 : digitN 2 (mm ++ ':' :: ss) = some (':' :: ss) :=
      (digitN_eq_some 2 _ _).mpr ⟨mm, hmm2, hmmdig, rfl⟩
    have h11 : digitN 2 ss = some [] :=
      (digitN_eq_some 2 _ _).mpr ⟨ss, hss2, hssdig, by simp⟩
    unfold isDatetimeShape
    simp only [beq_iff_eq, Option.bind_eq_some]
    exact ⟨ss, ⟨':' :: ss, ⟨mm ++ ':' :: ss, ⟨':' :: (mm ++ ':' :: ss),
      ⟨hh ++ ':' :: (mm ++ ':' :: ss), ⟨'T' :: (hh ++ ':' :: (mm ++ ':' :: ss)),
      ⟨d ++ 'T' :: (hh ++ ':' :: (mm ++ ':' :: ss)),
      ⟨'-' :: (d ++ 'T' :: (hh ++ ':' :: (mm ++ ':' :: ss))),
      ⟨mo ++ '-' :: (d ++ 'T' :: (hh ++ ':' :: (mm ++ ':' :: ss))),
      ⟨'-' :: (mo ++ '-' :: (d ++ 'T' :: (hh ++ ':' :: (mm ++ ':' :: ss)))),
      h1, by simp [lit]⟩, h3⟩, by simp [lit]⟩, h5⟩, by simp [lit]⟩, h7⟩,
      by simp [lit]⟩, h9⟩, by simp [lit]⟩, h11⟩

theorem dateStringOk_iff (s : String) :
    dateStringOk s = true ↔ dateExprSpec s := by
  unfold dateStringOk dateExprSpec
  simp only [Bool.or_eq_true, matchNdays_iff, matchWeekday_iff,
    isDateShape_iff, isDatetimeShape_iff, List.elem_iff]
  constructor
  · rintro (((((( hk | h ) | h ) | h ) | h ) | h ) | h)
    · exact Or.inl hk
    · obtain ⟨ds, hne, hdig, hcs⟩ := h
      exact Or.inr (Or.inl ⟨"next", by simp, ds, hne, hdig, hcs⟩)
    · obtain ⟨ds, hne, hdig, hcs⟩ := h
      exact Or.inr (Or.inl ⟨"last", by simp, ds, hne, hdig, hcs⟩)
    · obtain ⟨w, hw, hcs⟩ := h
      exact Or.inr (Or.inr (Or.inl ⟨"next", by simp, w, hw, hcs⟩))
    · obtain ⟨w, hw, hcs⟩ := h
      exact Or.inr (Or.inr (Or.inl ⟨"last", by simp, w, hw, hcs⟩))
    · exact Or.inr (Or.inr (Or.inr (Or.inl h)))
    · exact Or.inr (Or.inr (Or.inr (Or.inr h)))
  · rintro (hk | ⟨pre, hpre, ds, hne, hdig, hcs⟩
      | ⟨pre, hpre, w, hw, hcs⟩ | h | h)
    · exact Or.inl (Or.inl (Or.inl (Or.inl (Or.inl (Or.inl hk)))))
    · rcases List.mem_pair.mp hpre with rfl | rfl
      · exact Or.inl (Or.inl (Or.inl (Or.inl (Or.inl
          (Or.inr ⟨ds, hne, hdig, hcs⟩)))))
      · exact Or.inl (Or.inl (Or.inl (Or.inl (Or.inr ⟨ds, hne, hdig, hcs⟩))))
    · rcases List.mem_pair.mp hpre with rfl | rfl
      · exact Or.inl (Or.inl (Or.inl (Or.inr ⟨w, hw, hcs⟩)))
      · exact Or.inl (Or.inl (Or.inr ⟨w, hw, hcs⟩))
    · exact Or.inl (Or.inr h)
    · exact Or.inr h

/-! ### Small support lemmas -/

theorem zeroElse_eq (v : JVal)
    (hv : v = JVal.vNum 0 ∨ v = JVal.vNull ∨ truthy v = true) :
    zeroElse v = v := by
  rcases hv with rfl | rfl | ht
  · rfl
  · rfl
  · unfold zeroElse
    by_cases h0 : v = JVal.vNum 0
    · simp [h0]
    · simp [h0, ht]

theorem updResolved_eq_self {α : Type} (dtOf : α → Option JVal) (l : List α)
    (idv : JsAny) (x : α) (f : α → α)
    (hres : filterItemByDatetimeVal dtOf (some l) idv = .ok (some x))
    (hfx : f x = x) : updResolved dtOf l idv f = l := by
  rcases idv with v | o
  · rcases v with _ | _ | b | n | s
    · simp [filterItemByDatetimeVal] at hres
    · simp [filterItemByDatetimeVal] at hres
    · simp [filterItemByDatetimeVal] at hres
    · simp only [filterItemByDatetimeVal, Except.ok.injEq] at hres
      exact modifyNthInt_eq_self l n f x hres hfx
    · simp only [filterItemByDatetimeVal, Except.ok.injEq] at hres
      exact updFirstBy_eq_self dtOf l s f x hres hfx
  · simp [filterItemByDatetimeVal] at hres

/-! ### Claim theorems -/

/-- Claim C5 (evidence of the code bug): `setItemByDatetimeVal` with a
string identifier that resolves to an existing record does NOT replace the
full record - the old field `temp` survives into the result, against the
claim and against the function's own documentation, which says the new data
dictionary replaces the old dictionary.  (The numeric branch does replace.) -/
theorem claim_C5_thm :
    setItemByDatetimeVal
        (some [[("datetime", JVal.vStr "2025-03-07"), ("temp", JVal.vNum 15)]])
        (JsAny.prim (JVal.vStr "2025-03-07"))
        (JsAny.obj [("icon", JVal.vStr "rain")])
      = Except.ok
          ([[("datetime", JVal.vStr "2025-03-07"), ("temp", JVal.vNum 15),
             ("icon", JVal.vStr "rain")]],
           JsAny.obj [("icon", JVal.vStr "rain")])
    ∧ setItemByDatetimeVal
        (some [[("datetime", JVal.vStr "2025-03-07"), ("temp", JVal.vNum 15)]])
        (JsAny.prim (JVal.vNum 0))
        (JsAny.obj [("icon", JVal.vStr "rain")])
      = Except.ok
          ([[("icon", JVal.vStr "rain"), ("datetime", JVal.vStr "2025-03-07")]],
           JsAny.obj [("icon", JVal.vStr "rain"),
             ("datetime", JVal.vStr "2025-03-07")]) := by
  constructor
  · rfl
  · rfl

/-- Claim C8 counterexample: with `queryCost` holding 0, `getQueryCost`
returns null (the not-found sentinel), not 0, contradicting the claim. -/
theorem claim_C8_counterexample :
    sampleDoc.queryCost = some (JVal.vNum 0)
    ∧ getQueryCost sampleDoc = JVal.vNull
    ∧ JVal.vNull ≠ JVal.vNum 0 := by
  exact ⟨rfl, rfl, by decide⟩

/-- Claim C8 (amended): `getTzoffset` returns a stored 0 as 0 (its accessor
special-cases zero), but `getQueryCost` collapses a stored 0 into the null
sentinel; any truthy stored `queryCost` value is returned unchanged. -/
theorem claim_C8_amended (wd : WeatherData) :
    (wd.tzoffset = some (JVal.vNum 0) → getTzoffset wd = JVal.vNum 0)
    ∧ (wd.queryCost = some (JVal.vNum 0) → getQueryCost wd = JVal.vNull)
    ∧ (∀ v, wd.queryCost = some v → truthy v = true → getQueryCost wd = v) := by
  refine ⟨?_, ?_, ?_⟩
  · intro h
    simp [getTzoffset, h, zeroElse]
  · intro h
    simp [getQueryCost, h, truthy]
  · intro v h ht
    simp [getQueryCost, h, ht]

/-- Claim C8 witness: the amended statement evaluated on the sample
document, whose tzoffset and queryCost both hold 0. -/
theorem claim_C8_witness :
    (sampleDoc.tzoffset = some (JVal.vNum 0) →
      getTzoffset sampleDoc = JVal.vNum 0)
    ∧ (sampleDoc.queryCost = some (JVal.vNum 0) →
      getQueryCost sampleDoc = JVal.vNull)
    ∧ (∀ v, sampleDoc.queryCost = some v → truthy v = true →
      getQueryCost sampleDoc = v) :=
  claim_C8_amended sampleDoc

/-- Claim C9: when `setItemByDatetimeVal` or `updateItemByDatetimeVal` is
called with a numeric identifier that resolves to an existing record, the
caller-supplied data argument itself is mutated before the sequence is
updated: the data value returned to the caller is the original data with
its `datetime` field overwritten by the resolved record's datetime. -/
theorem claim_C9_thm (l : List Obj) (n : Int) (item : Obj) (dataF : Obj)
    (h : elemAt l n = some item) :
    setItemByDatetimeVal (some l) (.prim (.vNum n)) (.obj dataF)
        = .ok (setNth l n.toNat (setF dataF "datetime" (getD item "datetime")),
            .obj (setF dataF "datetime" (getD item "datetime")))
    ∧ updateItemByDatetimeVal (some l) (.prim (.vNum n)) (.obj dataF)
        = .ok (setNth l n.toNat
              (objAssign item (setF dataF "datetime" (getD item "datetime"))),
            .obj (setF dataF "datetime" (getD item "datetime")))
    ∧ getF (setF dataF "datetime" (getD item "datetime")) "datetime"
        = some (getD item "datetime") := by
  refine ⟨?_, ?_, getF_setF_self _ _ _⟩
  · simp only [setItemByDatetimeVal, h]
  · simp only [updateItemByDatetimeVal, h]

/-- Claim C9 witness: the mutation evaluated on a one-record sequence and a
data record carrying a different datetime. -/
theorem claim_C9_witness :
    setItemByDatetimeVal (some [[("datetime", JVal.vStr "2025-03-07")]])
        (.prim (.vNum 0)) (.obj [("datetime", JVal.vStr "1999-01-01")])
        = .ok (setNth [[("datetime", JVal.vStr "2025-03-07")]] (0 : Int).toNat
            (setF [("datetime", JVal.vStr "1999-01-01")] "datetime"
              (getD [("datetime", JVal.vStr "2025-03-07")] "datetime")),
          .obj (setF [("datetime", JVal.vStr "1999-01-01")] "datetime"
            (getD [("datetime", JVal.vStr "2025-03-07")] "datetime")))
    ∧ updateItemByDatetimeVal (some [[("datetime", JVal.vStr "2025-03-07")]])
        (.prim (.vNum 0)) (.obj [("datetime", JVal.vStr "1999-01-01")])
        = .ok (setNth [[("datetime", JVal.vStr "2025-03-07")]] (0 : Int).toNat
            (objAssign [("datetime", JVal.vStr "2025-03-07")]
              (setF [("datetime", JVal.vStr "1999-01-01")] "datetime"
                (getD [("datetime", JVal.vStr "2025-03-07")] "datetime"))),
          .obj (setF [("datetime", JVal.vStr "1999-01-01")] "datetime"
            (getD [("datetime", JVal.vStr "2025-03-07")] "datetime")))
    ∧ getF (setF [("datetime", JVal.vStr "1999-01-01")] "datetime"
          (getD [("datetime", JVal.vStr "2025-03-07")] "datetime")) "datetime"
        = some (getD [("datetime", JVal.vStr "2025-03-07")] "datetime") :=
  claim_C9_thm [[("datetime", JVal.vStr "2025-03-07")]] 0
    [("datetime", JVal.vStr "2025-03-07")]
    [("datetime", JVal.vStr "1999-01-01")] rfl

/-- Claim C10: `setItemByDatetimeVal` and `updateItemByDatetimeVal` fail
with a TypeError for every data argument that is not a non-null object, and
the failure is the data-validity error for every identifier value - even an
invalid-typed one - so the check precedes the identifier dispatch, and the
error return leaves the sequence unchanged. -/
theorem claim_C10_thm (l : List Obj) (idv : JsAny) (data : JsAny)
    (h : isObjArg data = false) :
    setItemByDatetimeVal (some l) idv data
        = .error (.typeError "Weather.setItemByDatetimeVal: Invalid input data value.")
    ∧ updateItemByDatetimeVal (some l) idv data
        = .error (.typeError "Weather.updateItemByDatetimeVal: Invalid input data value.") := by
  rcases data with v | o
  · exact ⟨rfl, rfl⟩
  · simp [isObjArg] at h

/-- Claim C10 witness: the data-validity failure evaluated with a null data
argument and an invalid-typed identifier. -/
theorem claim_C10_witness :
    setItemByDatetimeVal (some [[("datetime", JVal.vStr "2025-03-07")]])
        (JsAny.prim (JVal.vBool false)) (JsAny.prim JVal.vNull)
        = .error (.typeError "Weather.setItemByDatetimeVal: Invalid input data value.")
    ∧ updateItemByDatetimeVal (some [[("datetime", JVal.vStr "2025-03-07")]])
        (JsAny.prim (JVal.vBool false)) (JsAny.prim JVal.vNull)
        = .error (.typeError "Weather.updateItemByDatetimeVal: Invalid input data value.") :=
  claim_C10_thm [[("datetime", JVal.vStr "2025-03-07")]]
    (JsAny.prim (JVal.vBool false)) (JsAny.prim JVal.vNull) rfl

/-- Claim C1 counterexample: for an identifier that is neither a string nor
a number, the get accessor does NOT propagate the TypeError - the body
raises it but the catch clause swallows it and the caller sees null. -/
theorem claim_C1_counterexample :
    getTempOnDayBody sampleDoc (JsAny.prim (JVal.vBool false))
      = Except.error
          (JsError.typeError "Weather.getTempOnDay: Invalid input day value.")
    ∧ getTempOnDay sampleDoc (JsAny.prim (JVal.vBool false)) = JVal.vNull := by
  exact ⟨rfl, rfl⟩

/-- Claim C1 (amended): for every identifier that is neither a string nor a
number, the set accessors (day- and datetime-granularity) raise a TypeError
that propagates to the caller with no mutation of the stored document,
while the get accessors catch the TypeError internally and return null
instead of propagating it. -/
theorem claim_C1_amended (wd : WeatherData) (idv tidv : JsAny) (v : JVal)
    (hs : isStringArg idv = false) (hn : isNumberArg idv = false) :
    setTempOnDay wd idv v
      = .error (.typeError "Weather.setTempOnDay: Invalid input day value.")
    ∧ setTempAtDatetime wd idv tidv v
      = .error (.typeError "Weather.filterItemByDatetimeVal: Invalid input datetime value.")
    ∧ getTempOnDay wd idv = JVal.vNull
    ∧ getTempAtDatetime wd idv tidv = JVal.vNull := by
  rcases idv with dv | o
  · rcases dv with _ | _ | b | n | s
    · exact ⟨rfl, rfl, rfl, rfl⟩
    · exact ⟨rfl, rfl, rfl, rfl⟩
    · exact ⟨rfl, rfl, rfl, rfl⟩
    · simp [isNumberArg] at hn
    · simp [isStringArg] at hs
  · exact ⟨rfl, rfl, rfl, rfl⟩

/-- Claim C1 witness: the amended statement evaluated on the sample
document with a null identifier. -/
theorem claim_C1_witness :
    setTempOnDay sampleDoc (JsAny.prim JVal.vNull) (JVal.vNum 1)
      = .error (.typeError "Weather.setTempOnDay: Invalid input day value.")
    ∧ setTempAtDatetime sampleDoc (JsAny.prim JVal.vNull)
        (JsAny.prim JVal.vNull) (JVal.vNum 1)
      = .error (.typeError "Weather.filterItemByDatetimeVal: Invalid input datetime value.")
    ∧ getTempOnDay sampleDoc (JsAny.prim JVal.vNull) = JVal.vNull
    ∧ getTempAtDatetime sampleDoc (JsAny.prim JVal.vNull)
        (JsAny.prim JVal.vNull) = JVal.vNull :=
  claim_C1_amended sampleDoc (JsAny.prim JVal.vNull) (JsAny.prim JVal.vNull)
    (JVal.vNum 1) rfl rfl

/-- Claim C3 counterexample: `getDataAtDatetime` with a valid-typed day
identifier that resolves to no day raises a TypeError instead of returning
the not-found sentinel. -/
theorem claim_C3_counterexample :
    getDataAtDatetime sampleDoc (JsAny.prim (JVal.vStr "1970-01-01"))
        (JsAny.prim (JVal.vNum 0)) []
      = .error (.typeError "Cannot read properties of null - reading hours") := by
  rfl

/-- Claim C3 (amended): when the day identifier has valid type but resolves
to no day, `getTempAtDatetime` returns the null sentinel without raising
and without attempting the hour resolution (the time identifier is never
inspected, whatever it is), but `getDataAtDatetime` instead raises a
TypeError by dereferencing the null day record. -/
theorem claim_C3_amended (wd : WeatherData) (dayInfo timeInfo : JsAny)
    (h : filterItemByDatetimeVal dayDt wd.days dayInfo = .ok none) :
    getTempAtDatetime wd dayInfo timeInfo = JVal.vNull
    ∧ getDataAtDatetime wd dayInfo timeInfo []
      = .error (.typeError "Cannot read properties of null - reading hours") := by
  constructor
  · unfold getTempAtDatetime getTempAtDatetimeBody
    rw [h]
  · unfold getDataAtDatetime
    rw [h]

/-- Claim C3 witness: the amended statement evaluated on the sample
document with an absent day and an invalid-typed time identifier. -/
theorem claim_C3_witness :
    getTempAtDatetime sampleDoc (JsAny.prim (JVal.vStr "1970-01-01"))
        (JsAny.prim (JVal.vBool false)) = JVal.vNull
    ∧ getDataAtDatetime sampleDoc (JsAny.prim (JVal.vStr "1970-01-01"))
        (JsAny.prim (JVal.vBool false)) []
      = .error (.typeError "Cannot read properties of null - reading hours") :=
  claim_C3_amended sampleDoc (JsAny.prim (JVal.vStr "1970-01-01"))
    (JsAny.prim (JVal.vBool false)) rfl

/-- Claim C4 counterexample: setting temp to the empty string on a resolved
day and reading it back yields null, not the empty string - the get
accessor collapses every falsy value other than 0 into null. -/
theorem claim_C4_counterexample :
    (setTempOnDay sampleDoc (JsAny.prim (JVal.vStr "2025-03-07"))
        (JVal.vStr "")).map
      (fun wd1 => getTempOnDay wd1 (JsAny.prim (JVal.vStr "2025-03-07")))
      = Except.ok JVal.vNull
    ∧ JVal.vNull ≠ JVal.vStr "" := by
  exact ⟨rfl, by decide⟩

/-- Claim C4 (amended): for every day identifier that resolves to an
existing day, set-temp-on-day followed by get-temp-on-day returns exactly
the written value for v = 0, v = null and every truthy v; the original
claim fails only for the remaining falsy values (such as the empty
string), which read back as null. -/
theorem claim_C4_amended (wd : WeatherData) (ds : List DayRec)
    (dayInfo : JsAny) (dayX : DayRec) (v : JVal)
    (hds : wd.days = some ds)
    (hres : filterItemByDatetimeVal dayDt wd.days dayInfo = .ok (some dayX))
    (hv : v = JVal.vNum 0 ∨ v = JVal.vNull ∨ truthy v = true) :
    ∃ wd', setTempOnDay wd dayInfo v = .ok wd'
      ∧ getTempOnDay wd' dayInfo = v := by
  rw [hds] at hres
  rcases dayInfo with dv | o
  · rcases dv with _ | _ | b | n | s
    · simp [filterItemByDatetimeVal] at hres
    · simp [filterItemByDatetimeVal] at hres
    · simp [filterItemByDatetimeVal] at hres
    · simp only [filterItemByDatetimeVal, Except.ok.injEq] at hres
      refine ⟨{ wd with days := some (modifyNthInt ds n
          (fun d => { d with fields := setF d.fields "temp" v })) }, ?_, ?_⟩
      · unfold setTempOnDay
        rw [hds]
      · have h2 : elemAt (modifyNthInt ds n
            (fun d => { d with fields := setF d.fields "temp" v })) n
            = some { dayX with fields := setF dayX.fields "temp" v } :=
          elemAt_modifyNthInt_self ds n _ dayX hres
        unfold getTempOnDay getTempOnDayBody
        simp only [h2, getD, getF_setF_self, Option.getD_some]
        exact zeroElse_eq v hv
    · simp only [filterItemByDatetimeVal, Except.ok.injEq] at hres
      have hdt : ∀ a : DayRec,
          dayDt { a with fields := setF a.fields "temp" v } = dayDt a := by
        intro a
        unfold dayDt
        exact getF_setF_ne a.fields "temp" "datetime" v (by decide)
      refine ⟨{ wd with days := some (updFirstBy dayDt ds s
          (fun d => { d with fields := setF d.fields "temp" v })) }, ?_, ?_⟩
      · unfold setTempOnDay
        rw [hds]
      · have h2 := find?_updFirstBy dayDt ds s
          (fun d => { d with fields := setF d.fields "temp" v }) dayX hdt hres
        unfold getTempOnDay getTempOnDayBody
        simp only [h2, getD, getF_setF_self, Option.getD_some]
        exact zeroElse_eq v hv
  · simp [filterItemByDatetimeVal] at hres

/-- Claim C4 witness: the amended round-trip evaluated on the sample
document, writing the edge value 0 through the string identifier of its
one day. -/
theorem claim_C4_witness :
    ∃ wd', setTempOnDay sampleDoc (JsAny.prim (JVal.vStr "2025-03-07"))
        (JVal.vNum 0) = .ok wd'
      ∧ getTempOnDay wd' (JsAny.prim (JVal.vStr "2025-03-07"))
        = JVal.vNum 0 :=
  claim_C4_amended sampleDoc _ (JsAny.prim (JVal.vStr "2025-03-07")) _
    (JVal.vNum 0) rfl rfl (Or.inl rfl)

/-- Claim C2 counterexample: with the day resolving and the hour of valid
type but absent, `setTempAtDatetime` raises a TypeError (assigning through
the null hour record) instead of being a silent no-op. -/
theorem claim_C2_counterexample :
    setTempAtDatetime sampleDoc (JsAny.prim (JVal.vStr "2025-03-07"))
        (JsAny.prim (JVal.vStr "24:00:00")) (JVal.vNum 5)
      = .error (.typeError "Cannot set properties of null - setting temp") := by
  rfl

/-- Claim C2 (amended): an invalid-typed day identifier makes both setters
fail; a valid-typed day identifier that resolves to nothing makes
`setTempAtDatetime` a silent no-op (whatever the time identifier is) but
makes `setDataAtDatetime` raise a TypeError; when the day resolves and the
time identifier has valid type but resolves to nothing, `setTempAtDatetime`
raises a TypeError while `setDataAtDatetime` is the silent no-op; and when
the day resolves, an invalid-typed time identifier makes both fail. -/
theorem claim_C2_amended (wd : WeatherData) (dayInfo timeInfo : JsAny)
    (value : JVal) (dataF : Obj) :
    (isStringArg dayInfo = false → isNumberArg dayInfo = false →
      (∃ m, setTempAtDatetime wd dayInfo timeInfo value
          = .error (.typeError m))
      ∧ (∃ m, setDataAtDatetime wd dayInfo timeInfo (.obj dataF)
          = .error (.typeError m)))
    ∧ (filterItemByDatetimeVal dayDt wd.days dayInfo = .ok none →
      setTempAtDatetime wd dayInfo timeInfo value = .ok wd
      ∧ (∃ m, setDataAtDatetime wd dayInfo timeInfo (.obj dataF)
          = .error (.typeError m)))
    ∧ (∀ ds day, wd.days = some ds →
      filterItemByDatetimeVal dayDt wd.days dayInfo = .ok (some day) →
      filterItemByDatetimeVal hourDt day.hours timeInfo = .ok none →
      (∃ m, setTempAtDatetime wd dayInfo timeInfo value
          = .error (.typeError m))
      ∧ setDataAtDatetime wd dayInfo timeInfo (.obj dataF) = .ok wd)
    ∧ (∀ day, filterItemByDatetimeVal dayDt wd.days dayInfo = .ok (some day) →
      isStringArg timeInfo = false → isNumberArg timeInfo = false →
      (∃ m, setTempAtDatetime wd dayInfo timeInfo value
          = .error (.typeError m))
      ∧ (∃ m, setDataAtDatetime wd dayInfo timeInfo (.obj dataF)
          = .error (.typeError m))) := by
  refine ⟨?_, ?_, ?_, ?_⟩
  · intro hs hn
    rcases dayInfo with dv | o
    · rcases dv with _ | _ | b | n | s
      · exact ⟨⟨_, rfl⟩, ⟨_, rfl⟩⟩
      · exact ⟨⟨_, rfl⟩, ⟨_, rfl⟩⟩
      · exact ⟨⟨_, rfl⟩, ⟨_, rfl⟩⟩
      · simp [isNumberArg] at hn
      · simp [isStringArg] at hs
    · exact ⟨⟨_, rfl⟩, ⟨_, rfl⟩⟩
  · intro h
    constructor
    · simp only [setTempAtDatetime, h]
    · exact ⟨"Cannot read properties of null - reading hours",
        by simp only [setDataAtDatetime, h]⟩
  · intro ds day hds hday hhour
    rw [hds] at hday
    constructor
    · exact ⟨"Cannot set properties of null - setting temp",
        by simp only [setTempAtDatetime, hds, hday, hhour]⟩
    · rcases timeInfo with tv | tob
      · rcases tv with _ | _ | b | n | s
        · simp [filterItemByDatetimeVal] at hhour
        · simp [filterItemByDatetimeVal] at hhour
        · simp [filterItemByDatetimeVal] at hhour
        · rcases hd : day.hours with _ | hs
          · rw [hd] at hhour
            simp [filterItemByDatetimeVal] at hhour
          · rw [hd] at hhour
            simp only [filterItemByDatetimeVal, Except.ok.injEq] at hhour
            have hupd : updResolved dayDt ds dayInfo
                (fun d => { d with hours := some hs }) = ds := by
              refine updResolved_eq_self dayDt ds dayInfo day _ hday ?_
              cases day
              simp_all
            have hwd : { wd with days := some ds } = wd := by
              cases wd
              simp_all
            simp only [setDataAtDatetime, hds, hday, hd, setItemByDatetimeVal,
              hhour, Option.map_some', hupd, hwd]
        · rcases hd : day.hours with _ | hs
          · rw [hd] at hhour
            simp [filterItemByDatetimeVal] at hhour
          · rw [hd] at hhour
            simp only [filterItemByDatetimeVal, Except.ok.injEq] at hhour
            have hnm : ∀ x ∈ hs, ¬ getF x "datetime" = some (JVal.vStr s) := by
              intro x hx
              have := List.find?_eq_none.mp hhour x hx
              simpa [hourDt] using this
            have hassign : assignFirst hs s dataF = hs :=
              assignFirst_no_match hs s dataF hnm
            have hupd : updResolved dayDt ds dayInfo
                (fun d => { d with hours := some hs }) = ds := by
              refine updResolved_eq_self dayDt ds dayInfo day _ hday ?_
              cases day
              simp_all
            have hwd : { wd with days := some ds } = wd := by
              cases wd
              simp_all
            simp only [setDataAtDatetime, hds, hday, hd, setItemByDatetimeVal,
              hassign, Option.map_some', hupd, hwd]
      · simp [filterItemByDatetimeVal] at hhour
  · intro day hday hs hn
    rcases timeInfo with tv | tob
    · rcases tv with _ | _ | b | n | s
      · refine ⟨⟨"Weather.filterItemByDatetimeVal: Invalid input datetime value.", ?_⟩,
          ⟨"Weather.setItemByDatetimeVal: Invalid input datetime value.", ?_⟩⟩
        · simp only [setTempAtDatetime, hday]
          simp only [filterItemByDatetimeVal]
        · simp only [setDataAtDatetime, hday]
          simp only [setItemByDatetimeVal]
      · refine ⟨⟨"Weather.filterItemByDatetimeVal: Invalid input datetime value.", ?_⟩,
          ⟨"Weather.setItemByDatetimeVal: Invalid input datetime value.", ?_⟩⟩
        · simp only [setTempAtDatetime, hday]
          simp only [filterItemByDatetimeVal]
        · simp only [setDataAtDatetime, hday]
          simp only [setItemByDatetimeVal]
      · refine ⟨⟨"Weather.filterItemByDatetimeVal: Invalid input datetime value.", ?_⟩,
          ⟨"Weather.setItemByDatetimeVal: Invalid input datetime value.", ?_⟩⟩
        · simp only [setTempAtDatetime, hday]
          simp only [filterItemByDatetimeVal]
        · simp only [setDataAtDatetime, hday]
          simp only [setItemByDatetimeVal]
      · simp [isNumberArg] at hn
      · simp [isStringArg] at hs
    · refine ⟨⟨"Weather.filterItemByDatetimeVal: Invalid input datetime value.", ?_⟩,
        ⟨"Weather.setItemByDatetimeVal: Invalid input datetime value.", ?_⟩⟩
      · simp only [setTempAtDatetime, hday]
        simp only [filterItemByDatetimeVal]
      · simp only [setDataAtDatetime, hday]
        simp only [setItemByDatetimeVal]


/-- Claim C2 witness: the amended statement evaluated on the sample
document - the hour 24:00:00 is absent from the resolved day, so
`setTempAtDatetime` errors while `setDataAtDatetime` leaves the document
unchanged. -/
theorem claim_C2_witness :
    (∃ m, setTempAtDatetime sampleDoc (JsAny.prim (JVal.vStr "2025-03-07"))
        (JsAny.prim (JVal.vStr "24:00:00")) (JVal.vNum 5)
        = .error (.typeError m))
    ∧ setDataAtDatetime sampleDoc (JsAny.prim (JVal.vStr "2025-03-07"))
        (JsAny.prim (JVal.vStr "24:00:00"))
        (.obj [("temp", JVal.vNum 5)]) = .ok sampleDoc :=
  (claim_C2_amended sampleDoc (JsAny.prim (JVal.vStr "2025-03-07"))
    (JsAny.prim (JVal.vStr "24:00:00")) (JVal.vNum 5)
    [("temp", JVal.vNum 5)]).2.2.1 _ _ rfl rfl rfl

/-- Claim C6: for every identifier that resolves to an existing record,
`updateItemByDatetimeVal` merges the partial record onto it - every field
of the original record whose key is not in the partial record is unchanged,
and the resulting record's datetime equals the original record's datetime
regardless of any datetime the partial record carries; when the identifier
resolves to nothing, the sequence is returned unchanged.  (The numeric case
assumes the partial record has no duplicate keys, as any JS object.) -/
theorem claim_C6_thm (l : List Obj) (dataF : Obj) :
    (∀ s item,
      l.find? (fun x => getF x "datetime" = some (JVal.vStr s)) = some item →
      updateItemByDatetimeVal (some l) (.prim (.vStr s)) (.obj dataF)
          = .ok (assignFirst l s dataF, .obj dataF)
      ∧ (assignFirst l s dataF).find?
            (fun x => getF x "datetime" = some (JVal.vStr s))
          = some (setF (objAssign item dataF) "datetime" (JVal.vStr s))
      ∧ (∀ k, k ∉ dataF.map Prod.fst → k ≠ "datetime" →
          getF (setF (objAssign item dataF) "datetime" (JVal.vStr s)) k
            = getF item k)
      ∧ getF (setF (objAssign item dataF) "datetime" (JVal.vStr s)) "datetime"
          = getF item "datetime")
    ∧ (∀ (n : Int) item, (dataF.map Prod.fst).Nodup → elemAt l n = some item →
      updateItemByDatetimeVal (some l) (.prim (.vNum n)) (.obj dataF)
          = .ok (setNth l n.toNat
              (objAssign item (setF dataF "datetime" (getD item "datetime"))),
            .obj (setF dataF "datetime" (getD item "datetime")))
      ∧ elemAt (setNth l n.toNat
            (objAssign item (setF dataF "datetime" (getD item "datetime")))) n
          = some (objAssign item (setF dataF "datetime" (getD item "datetime")))
      ∧ (∀ k, k ∉ dataF.map Prod.fst → k ≠ "datetime" →
          getF (objAssign item (setF dataF "datetime" (getD item "datetime"))) k
            = getF item k)
      ∧ getD (objAssign item (setF dataF "datetime" (getD item "datetime")))
            "datetime"
          = getD item "datetime")
    ∧ (∀ s, (∀ x ∈ l, ¬ getF x "datetime" = some (JVal.vStr s)) →
      updateItemByDatetimeVal (some l) (.prim (.vStr s)) (.obj dataF)
          = .ok (l, .obj dataF))
    ∧ (∀ n : Int, elemAt l n = none →
      updateItemByDatetimeVal (some l) (.prim (.vNum n)) (.obj dataF)
          = .ok (l, .obj dataF)) := by
  refine ⟨?_, ?_, ?_, ?_⟩
  · intro s item h
    have hitem : getF item "datetime" = some (JVal.vStr s) := by
      simpa using List.find?_some h
    refine ⟨rfl, assignFirst_find l s dataF item h, ?_, ?_⟩
    · intro k hk hkd
      rw [getF_setF_ne _ _ _ _ hkd, getF_objAssign_not_mem _ _ _ hk]
    · rw [getF_setF_self, hitem]
  · intro n item hnd h
    have hkeys : ∀ k, k ∉ dataF.map Prod.fst → k ≠ "datetime" →
        k ∉ (setF dataF "datetime" (getD item "datetime")).map Prod.fst := by
      intro k hk hkd
      rw [keys_setF]
      by_cases hm : "datetime" ∈ dataF.map Prod.fst
      · simpa [hm] using hk
      · simp [hm, hk, hkd]
    refine ⟨by simp only [updateItemByDatetimeVal, h], ?_, ?_, ?_⟩
    · exact elemAt_setNth_self l n _ item h
    · intro k hk hkd
      exact getF_objAssign_not_mem _ _ _ (hkeys k hk hkd)
    · have h2 : getF (objAssign item
          (setF dataF "datetime" (getD item "datetime"))) "datetime"
          = some (getD item "datetime") :=
        getF_objAssign_mem item _ "datetime" (getD item "datetime")
          (nodup_keys_setF dataF "datetime" (getD item "datetime") hnd)
          (getF_setF_self dataF "datetime" (getD item "datetime"))
      simp only [getD] at h2
      simp only [getD, h2, Option.getD_some]
  · intro s hnm
    simp only [updateItemByDatetimeVal, assignFirst_no_match l s dataF hnm]
  · intro n hn
    simp only [updateItemByDatetimeVal, hn]

/-- Claim C6 witness: the no-op case of the merge evaluated on a
one-record sequence with a non-matching identifier. -/
theorem claim_C6_witness :
    updateItemByDatetimeVal (some [[("datetime", JVal.vStr "2025-03-07")]])
        (.prim (.vStr "1970-01-01")) (.obj [("temp", JVal.vNum 1)])
      = .ok ([[("datetime", JVal.vStr "2025-03-07")]],
          .obj [("temp", JVal.vNum 1)]) :=
  (claim_C6_thm [[("datetime", JVal.vStr "2025-03-07")]]
    [("temp", JVal.vNum 1)]).2.2.1 "1970-01-01" (by decide)

/-- Claim C7: `validateParamDate` returns a string input unchanged exactly
when it belongs to the date-expression vocabulary the specification lists
(the fixed keywords, `next<N>days` / `last<N>days` for a non-negative
integer N, `next<Weekday>` / `last<Weekday>` for the seven weekday names,
the calendar-date shape `YYYY-MM-DD` and the calendar-datetime shape
`YYYY-MM-DDTHH:MM:SS`); it fails with a plain Error (invalid format) on
every other string, returns every number unchanged, and fails with a
TypeError on every value that is neither a string nor a number. -/
theorem claim_C7_thm :
    (∀ s : String,
      validateParamDate (.prim (.vStr s)) = .ok (.prim (.vStr s))
        ↔ dateExprSpec s)
    ∧ (∀ s : String, ¬ dateExprSpec s →
      validateParamDate (.prim (.vStr s))
        = .error (JsError.error "Weather.validateParamDate: Invalid date."))
    ∧ (∀ n : Int, validateParamDate (.prim (.vNum n)) = .ok (.prim (.vNum n)))
    ∧ (∀ v : JsAny, isStringArg v = false → isNumberArg v = false →
      validateParamDate v
        = .error (JsError.typeError "Weather.validateParamDate: Invalid date type.")) := by
  refine ⟨?_, ?_, ?_, ?_⟩
  · intro s
    by_cases h : dateStringOk s = true
    · simp only [validateParamDate, if_pos h]
      simpa using (dateStringOk_iff s).mp h
    · simp only [validateParamDate, if_neg h]
      constructor
      · intro hc
        simp at hc
      · intro hspec
        exact absurd ((dateStringOk_iff s).mpr hspec) h
  · intro s hns
    have h : ¬ dateStringOk s = true :=
      fun hh => hns ((dateStringOk_iff s).mp hh)
    simp only [validateParamDate, if_neg h]
  · intro n
    rfl
  · intro v hs hn
    rcases v with pv | o
    · rcases pv with _ | _ | b | n | s
      · rfl
      · rfl
      · rfl
      · simp [isNumberArg] at hn
      · simp [isStringArg] at hs
    · rfl

/-- Claim C7 witness: the characterization applied at one concrete input of
each kind - an N-days form, a calendar date, a rejected string, a number
and a non-string non-number value. -/
theorem claim_C7_witness :
    validateParamDate (.prim (.vStr "next10days"))
      = .ok (.prim (.vStr "next10days"))
    ∧ validateParamDate (.prim (.vStr "2025-03-07"))
      = .ok (.prim (.vStr "2025-03-07"))
    ∧ validateParamDate (.prim (.vStr "hello"))
      = .error (JsError.error "Weather.validateParamDate: Invalid date.")
    ∧ validateParamDate (.prim (.vNum 42)) = .ok (.prim (.vNum 42))
    ∧ validateParamDate (.prim JVal.vNull)
      = .error (JsError.typeError "Weather.validateParamDate: Invalid date type.") := by
  refine ⟨?_, ?_, ?_, claim_C7_thm.2.2.1 42,
    claim_C7_thm.2.2.2 (.prim JVal.vNull) rfl rfl⟩
  · exact (claim_C7_thm.1 "next10days").mpr
      (Or.inr (Or.inl ⟨"next", by simp, ['1', '0'], by decide, by decide,
        by decide⟩))
  · exact (claim_C7_thm.1 "2025-03-07").mpr
      (Or.inr (Or.inr (Or.inr (Or.inl ⟨['2', '0', '2', '5'], ['0', '3'],
        ['0', '7'], by decide, by decide, by decide, by decide, by decide,
        by decide, by decide⟩))))
  · refine claim_C7_thm.2.1 "hello" (fun hspec => ?_)
    have hok := (claim_C7_thm.1 "hello").mpr hspec
    have herr : validateParamDate (.prim (.vStr "hello"))
        = .error (JsError.error "Weather.validateParamDate: Invalid date.") :=
      rfl
    rw [herr] at hok
    simp at hok
